import Mathlib

/-!
Shallow embedding of the JSON-backed article store (`MockDatabase` in
`src/0104.py`) of the Text-Summarization-Model repository, together with
theorems settling the specification's claims about it.

The store owns a single JSON file (`db_path`).  We model the contents of
that file as an `Option DBData` (`none` when the file is absent), and a
running store as the pair of its in-memory `data` dict and the current
file contents.  File writes may fail; `add_article` therefore takes a
`writeOk : Bool` oracle describing whether the underlying write succeeds,
and returns `Except Unit Int` mirroring "return the id or raise IOError".
-/

namespace TextSum

/-- One article record, as stored in the `"articles"` list of the JSON
object: `{"id": int, "title": str, "content": str, "category": str}`. -/
structure Article where
  id : Int
  title : String
  content : String
  category : String
deriving Repr, DecidableEq

/-- The JSON object held in `self.data` / the backing file: a dict that may
or may not contain the `"articles"` key (the code always accesses it with
`self.data.get("articles", [])`, so the key's absence must be modelled). -/
structure DBData where
  articles : Option (List Article)
deriving Repr, DecidableEq

/-- `data.get("articles", [])`. -/
def DBData.getArticles (d : DBData) : List Article :=
  d.articles.getD []

/-- Python's `str.lower()`: lowercase each character (modelled per
character over the string's character list). -/
def strLower (s : String) : String :=
  ⟨s.data.map Char.toLower⟩

/-- Python's `max(xs, default=d)`: the maximum element of `xs`, or `d`
when `xs` is empty (the default is NOT an extra candidate). -/
def maxD (xs : List Int) (d : Int) : Int :=
  match xs with
  | [] => d
  | x :: rest => rest.foldl max x

/-- A running `MockDatabase` instance: the in-memory dict `self.data`
plus the current contents of the file at `self.db_path`
(`none` = file does not exist). -/
structure Store where
  data : DBData
  fs : Option DBData
deriving Repr, DecidableEq

/-- The list of ids present in the store's in-memory collection. -/
def Store.ids (s : Store) : List Int :=
  s.data.getArticles.map Article.id

/-- `new_id = max([a["id"] for a in articles], default=0) + 1`
(from `MockDatabase.add_article`). -/
def Store.new_id (s : Store) : Int :=
  maxD (s.data.getArticles.map Article.id) 0 + 1

/-- The `new_article` dict built by `MockDatabase.add_article`:
title and category stored verbatim, `content.strip()` for the body. -/
def Store.newArticle (s : Store) (title content category : String) : Article :=
  { id := s.new_id, title := title, content := content.trim, category := category }

/-- Seed article 1 of `_load_data`'s `default_data`. -/
def seedArticle1 : Article :=
  { id := 1
    title := "Artificial Intelligence Revolution"
    content := "\n                        Artificial Intelligence (AI) is rapidly transforming our world. \n                        From self-driving cars and personalized recommendations to virtual assistants and automated customer service, \n                        AI applications are everywhere. The technology uses algorithms and large datasets to learn patterns, \n                        make decisions, and even generate human-like text and images. While AI offers immense potential, \n                        it also raises ethical concerns around bias, job displacement, and privacy. \n                        Understanding how AI works is becoming increasingly important for both individuals and organizations.\n                        "
    category := "Technology" }

/-- Seed article 2 of `_load_data`'s `default_data`. -/
def seedArticle2 : Article :=
  { id := 2
    title := "Climate Change and Renewable Energy"
    content := "\n                        Climate change represents one of the most pressing challenges of our time. \n                        Rising global temperatures, melting ice caps, and extreme weather events are clear indicators \n                        of the urgent need for action. Renewable energy sources like solar, wind, and hydroelectric power \n                        offer promising solutions to reduce greenhouse gas emissions. Governments worldwide are implementing \n                        policies to accelerate the transition to clean energy, while businesses are investing heavily \n                        in sustainable technologies. The shift towards renewable energy not only helps combat climate change \n                        but also creates new economic opportunities and jobs in the green energy sector.\n                        "
    category := "Environment" }

/-- Seed article 3 of `_load_data`'s `default_data`. -/
def seedArticle3 : Article :=
  { id := 3
    title := "The Future of Remote Work"
    content := "\n                        The COVID-19 pandemic fundamentally changed how we work, accelerating the adoption of remote work \n                        technologies and practices. Companies that previously resisted remote work were forced to adapt quickly, \n                        implementing video conferencing, cloud-based collaboration tools, and flexible work arrangements. \n                        Studies show that remote work can increase productivity and employee satisfaction while reducing \n                        overhead costs for businesses. However, challenges remain, including maintaining company culture, \n                        ensuring effective communication, and addressing the digital divide. As we move forward, hybrid work \n                        models that combine remote and in-office work are becoming the new standard.\n                        "
    category := "Business" }

/-- `default_data` built by `MockDatabase._load_data` when the file is
absent: a dict with the `"articles"` key mapped to the three seeds. -/
def defaultData : DBData :=
  { articles := some [seedArticle1, seedArticle2, seedArticle3] }

/-- `MockDatabase.__init__` composed with `_load_data`: if the file at
`db_path` exists, load it verbatim; otherwise build `default_data`,
persist it via `_save_data`, and use it.  Returns the resulting running
store (in-memory data plus the file contents after construction). -/
def MockDatabase.init (fs : Option DBData) : Store :=
  match fs with
  | some d => { data := d, fs := some d }
  | none => { data := defaultData, fs := some defaultData }

/-- `MockDatabase.get_all_articles`: `return self.data.get("articles", [])`.
Returned together with the (unchanged) store state, because the Python
method has access to `self` and the filesystem but touches neither. -/
def Store.get_all_articles (s : Store) : List Article × Store :=
  (s.data.getArticles, s)

/-- `MockDatabase.get_article_by_id`: linear scan, first article whose
`"id"` equals `article_id`, else `None`. -/
def Store.get_article_by_id (s : Store) (article_id : Int) :
    Option Article × Store :=
  (s.data.getArticles.find? (fun a => a.id == article_id), s)

/-- `MockDatabase.get_articles_by_category`: list comprehension keeping
articles with `article["category"].lower() == category.lower()`. -/
def Store.get_articles_by_category (s : Store) (category : String) :
    List Article × Store :=
  (s.data.getArticles.filter
    (fun a => strLower a.category == strLower category), s)

/-- `MockDatabase.add_article`: read `self.data.get("articles", [])`,
compute `new_id`, build `new_article` (with `content.strip()`), append,
store the list back under the `"articles"` key, then `_save_data`.
`writeOk` tells whether the file write succeeds; on failure the IOError
propagates (`Except.error ()`) but the in-memory mutation stays. -/
def Store.add_article (s : Store) (title content category : String)
    (writeOk : Bool) : Except Unit Int × Store :=
  let new_article := s.newArticle title content category
  let data' : DBData := { articles := some (s.data.getArticles ++ [new_article]) }
  match writeOk with
  | true => (Except.ok s.new_id, { data := data', fs := some data' })
  | false => (Except.error (), { data := data', fs := s.fs })

/-- Running a sequence of `add_article` calls (arguments plus the
write-success oracle for each call), threading the store state. -/
def Store.addSeq (s : Store) : List (String × String × String × Bool) → Store
  | [] => s
  | (t, c, cat, w) :: ops => ((s.add_article t c cat w).2).addSeq ops

/-! ### Helper lemmas -/

lemma foldl_max_init_le (l : List Int) (a : Int) : a ≤ l.foldl max a := by
  induction l generalizing a with
  | nil => simp
  | cons x xs ih => exact le_trans (le_max_left a x) (ih (max a x))

lemma mem_le_foldl_max (l : List Int) (a : Int) :
    ∀ x ∈ l, x ≤ l.foldl max a := by
  induction l generalizing a with
  | nil => simp
  | cons y ys ih =>
    intro x hx
    rcases List.mem_cons.mp hx with h | h
    · subst h
      exact le_trans (le_max_right a x) (foldl_max_init_le ys (max a x))
    · exact ih (max a y) x h

lemma le_maxD (xs : List Int) (d : Int) : ∀ x ∈ xs, x ≤ maxD xs d := by
  cases xs with
  | nil => simp
  | cons y ys =>
    intro x hx
    rcases List.mem_cons.mp hx with h | h
    · subst h; exact foldl_max_init_le ys x
    · exact mem_le_foldl_max ys y x h

/-- Every id already present in the store is strictly below the id that
`add_article` will assign next. -/
lemma id_lt_new_id (s : Store) : ∀ a ∈ s.data.getArticles, a.id < s.new_id := by
  intro a ha
  have h := le_maxD (s.data.getArticles.map Article.id) 0 a.id
    (List.mem_map_of_mem Article.id ha)
  calc a.id ≤ maxD (s.data.getArticles.map Article.id) 0 := h
    _ < s.new_id := by simp [Store.new_id]

lemma find?_append_of_none {α : Type} (p : α → Bool) (l₁ l₂ : List α)
    (h : ∀ x ∈ l₁, p x = false) : (l₁ ++ l₂).find? p = l₂.find? p := by
  induction l₁ with
  | nil => rfl
  | cons y ys ih =>
    have hy : p y = false := h y (List.mem_cons_self y ys)
    simp only [List.cons_append, List.find?, hy]
    exact ih (fun x hx => h x (List.mem_cons_of_mem y hx))

/-- The in-memory dict after `add_article` (regardless of whether the
file write succeeded): the old list with the new article appended,
stored under the `"articles"` key. -/
lemma add_article_data (s : Store) (t c cat : String) (w : Bool) :
    (s.add_article t c cat w).2.data
      = { articles := some (s.data.getArticles ++ [s.newArticle t c cat]) } := by
  cases w <;> rfl

lemma add_article_ids (s : Store) (t c cat : String) (w : Bool) :
    (s.add_article t c cat w).2.ids = s.ids ++ [s.new_id] := by
  simp [Store.ids, add_article_data, DBData.getArticles, Store.newArticle]

lemma add_article_ret (s : Store) (t c cat : String) :
    (s.add_article t c cat true).1 = Except.ok s.new_id := rfl

/-- Id-distinctness is preserved by a single `add_article` call. -/
lemma nodup_add_article (s : Store) (t c cat : String) (w : Bool)
    (h : s.ids.Nodup) : (s.add_article t c cat w).2.ids.Nodup := by
  rw [add_article_ids]
  rw [List.nodup_append]
  refine ⟨h, List.nodup_singleton _, ?_⟩
  intro x hx hy
  have hy' : x = s.new_id := by simpa using hy
  rcases List.mem_map.mp hx with ⟨a, ha, hax⟩
  rw [hy'] at hax
  exact absurd hax (ne_of_lt (id_lt_new_id s a ha))

/-- Id-distinctness is preserved by any sequence of `add_article` calls. -/
lemma nodup_addSeq (ops : List (String × String × String × Bool)) :
    ∀ s : Store, s.ids.Nodup → (s.addSeq ops).ids.Nodup := by
  induction ops with
  | nil => intro s h; exact h
  | cons op ops ih =>
    intro s h
    obtain ⟨t, c, cat, w⟩ := op
    exact ih _ (nodup_add_article s t c cat w h)

/-! ### Claim theorems -/

/-- C1: for every store state with pairwise-distinct ids and any sequence
of `add` operations, each `add` assigns the new article an id equal to
one more than the maximum id present immediately before the call (1 when
the store is empty), and all ids in the store remain pairwise distinct
after every operation. -/
theorem add_assigns_next_id_and_keeps_ids_distinct
    (s : Store) (t c cat : String) (w : Bool)
    (ops : List (String × String × String × Bool))
    (h : s.ids.Nodup) :
    (s.add_article t c cat true).1 = Except.ok (maxD s.ids 0 + 1) ∧
    (s.add_article t c cat w).2.ids = s.ids ++ [maxD s.ids 0 + 1] ∧
    (s.ids = [] → (s.add_article t c cat w).2.ids = s.ids ++ [1]) ∧
    (s.add_article t c cat w).2.ids.Nodup ∧
    (s.addSeq ops).ids.Nodup := by
  refine ⟨rfl, add_article_ids s t c cat w, ?_, nodup_add_article s t c cat w h,
    nodup_addSeq ops s h⟩
  intro he
  have h1 : s.new_id = 1 := by
    show maxD s.ids 0 + 1 = 1
    rw [he]
    rfl
  rw [add_article_ids, h1]

/-- Witness for C1 at the empty store, with two further adds queued. -/
theorem add_assigns_next_id_witness :
    (Store.mk ⟨some []⟩ none).ids.Nodup ∧
    (((Store.mk ⟨some []⟩ none).add_article "T" " body " "Cat" true).1
        = Except.ok (maxD (Store.mk ⟨some []⟩ none).ids 0 + 1) ∧
      ((Store.mk ⟨some []⟩ none).add_article "T" " body " "Cat" true).2.ids
        = (Store.mk ⟨some []⟩ none).ids ++ [maxD (Store.mk ⟨some []⟩ none).ids 0 + 1] ∧
      ((Store.mk ⟨some []⟩ none).ids = [] →
        ((Store.mk ⟨some []⟩ none).add_article "T" " body " "Cat" true).2.ids
          = (Store.mk ⟨some []⟩ none).ids ++ [1]) ∧
      ((Store.mk ⟨some []⟩ none).add_article "T" " body " "Cat" true).2.ids.Nodup ∧
      ((Store.mk ⟨some []⟩ none).addSeq
          [("A", "a", "X", true), ("B", "b", "Y", true)]).ids.Nodup) :=
  ⟨by decide,
    add_assigns_next_id_and_keeps_ids_distinct (Store.mk ⟨some []⟩ none)
      "T" " body " "Cat" true [("A", "a", "X", true), ("B", "b", "Y", true)]
      (by decide)⟩

/-- C2: `add(t, c, cat)` followed by `getById` at the returned id yields
an Article whose content is `c` stripped and whose title/category equal
the inputs exactly. -/
theorem add_getById_round_trip (s : Store) (t c cat : String) :
    (s.add_article t c cat true).1 = Except.ok s.new_id ∧
    ((s.add_article t c cat true).2.get_article_by_id s.new_id).1
      = some (s.newArticle t c cat) ∧
    (s.newArticle t c cat).content = c.trim ∧
    (s.newArticle t c cat).title = t ∧
    (s.newArticle t c cat).category = cat := by
  refine ⟨rfl, ?_, rfl, rfl, rfl⟩
  have hdata := add_article_data s t c cat true
  simp only [Store.get_article_by_id, hdata, DBData.getArticles, Option.getD]
  rw [find?_append_of_none]
  · simp [List.find?, Store.newArticle]
  · intro a ha
    simp only [beq_eq_false_iff_ne, ne_eq]
    exact ne_of_lt (id_lt_new_id s a ha)

/-- C3: constructing the store over an absent backing file yields exactly
the 3 seed articles with ids 1, 2, 3, and the file is immediately created
with that seed collection. -/
theorem seed_on_first_run :
    (MockDatabase.init none).data.getArticles.length = 3 ∧
    (MockDatabase.init none).data.getArticles.map Article.id = [1, 2, 3] ∧
    (MockDatabase.init none).data = defaultData ∧
    (MockDatabase.init none).fs = some defaultData :=
  ⟨rfl, rfl, rfl, rfl⟩

/-- C4: after a successful `add`, constructing a fresh store over the same
backing file (no shared in-memory state) yields a collection containing
the newly added article, with the id that `add` returned. -/
theorem add_then_reload_contains_new_article (s : Store) (t c cat : String) :
    (s.add_article t c cat true).1 = Except.ok s.new_id ∧
    s.newArticle t c cat
      ∈ (MockDatabase.init (s.add_article t c cat true).2.fs).data.getArticles ∧
    (s.newArticle t c cat).id = s.new_id := by
  refine ⟨rfl, ?_, rfl⟩
  simp [Store.add_article, MockDatabase.init, DBData.getArticles]

/-- C5: when the file write inside `add` fails, the I/O error propagates
to the caller, yet the in-memory collection keeps the appended article
(no rollback), and the backing file is left as it was. -/
theorem add_write_failure_keeps_memory_mutated (s : Store) (t c cat : String) :
    (s.add_article t c cat false).1 = Except.error () ∧
    s.newArticle t c cat ∈ (s.add_article t c cat false).2.data.getArticles ∧
    (s.add_article t c cat false).2.data.getArticles
      = s.data.getArticles ++ [s.newArticle t c cat] ∧
    (s.add_article t c cat false).2.fs = s.fs := by
  refine ⟨rfl, ?_, ?_, rfl⟩ <;>
    simp [Store.add_article, DBData.getArticles]

/-- C8: `getAll` returns exactly the ordered in-memory collection, and
none of the three read operations changes the store state (neither the
in-memory dict nor the backing file). -/
theorem read_operations_have_no_side_effects (s : Store) (i : Int) (cat : String) :
    (s.get_all_articles).1 = s.data.getArticles ∧
    (s.get_all_articles).2 = s ∧
    (s.get_article_by_id i).2 = s ∧
    (s.get_articles_by_category cat).2 = s :=
  ⟨rfl, rfl, rfl, rfl⟩

/-- C9: when the loaded dict lacks the `"articles"` key, every read
degrades gracefully (empty list / not-found sentinel), and `add` treats
the store as empty: it assigns id 1 and creates the `"articles"` key. -/
theorem missing_articles_key_degrades_gracefully (fs : Option DBData) (i : Int)
    (cat t c cc : String) (w : Bool) :
    ((Store.mk ⟨none⟩ fs).get_all_articles).1 = [] ∧
    ((Store.mk ⟨none⟩ fs).get_article_by_id i).1 = none ∧
    ((Store.mk ⟨none⟩ fs).get_articles_by_category cat).1 = [] ∧
    (Store.mk ⟨none⟩ fs).new_id = 1 ∧
    ((Store.mk ⟨none⟩ fs).add_article t c cc true).1 = Except.ok 1 ∧
    ((Store.mk ⟨none⟩ fs).add_article t c cc w).2.data.articles
      = some [(Store.mk ⟨none⟩ fs).newArticle t c cc] := by
  refine ⟨rfl, rfl, rfl, rfl, rfl, ?_⟩
  cases w <;> rfl

/-- C10: the list returned by `getByCategory` is a sublist of the full
in-memory collection returned by `getAll`: matching articles appear in
the same relative (insertion) order. -/
theorem getByCategory_sublist_of_getAll (s : Store) (cat : String) :
    List.Sublist (s.get_articles_by_category cat).1 (s.get_all_articles).1 :=
  List.filter_sublist s.data.getArticles

/-- C6: `getByCategory` returns exactly the articles matching the query
case-insensitively; two queries with the same lowercasing give identical
results; no match gives the empty sequence (total, never an error). -/
theorem getByCategory_case_insensitive (s : Store) (cat c1 c2 : String)
    (a : Article) (hc : strLower c1 = strLower c2) :
    (a ∈ (s.get_articles_by_category cat).1 ↔
      a ∈ (s.get_all_articles).1 ∧ strLower a.category = strLower cat) ∧
    (s.get_articles_by_category c1).1 = (s.get_articles_by_category c2).1 ∧
    ((∀ b ∈ (s.get_all_articles).1, strLower b.category ≠ strLower cat) →
      (s.get_articles_by_category cat).1 = []) := by
  refine ⟨?_, ?_, ?_⟩
  · simp [Store.get_articles_by_category, Store.get_all_articles,
      List.mem_filter]
  · simp [Store.get_articles_by_category, hc]
  · intro hnone
    simp only [Store.get_articles_by_category]
    rw [List.filter_eq_nil_iff]
    intro b hb
    simpa using hnone b hb

/-- Witness for C6 on the seed store: queries `"technology"` and
`"Technology"` agree, and seed article 1 is in the result set. -/
theorem getByCategory_case_insensitive_witness :
    strLower "technology" = strLower "Technology" ∧
    ((seedArticle1 ∈ ((MockDatabase.init none).get_articles_by_category "technology").1 ↔
        seedArticle1 ∈ ((MockDatabase.init none).get_all_articles).1 ∧
          strLower seedArticle1.category = strLower "technology") ∧
      ((MockDatabase.init none).get_articles_by_category "technology").1
        = ((MockDatabase.init none).get_articles_by_category "Technology").1 ∧
      ((∀ b ∈ ((MockDatabase.init none).get_all_articles).1,
          strLower b.category ≠ strLower "technology") →
        ((MockDatabase.init none).get_articles_by_category "technology").1 = [])) :=
  ⟨by decide,
    getByCategory_case_insensitive (MockDatabase.init none)
      "technology" "technology" "Technology" seedArticle1 (by decide)⟩

/-- C7: `getById` returns the `None` sentinel exactly when no article in
the store has the requested id, and otherwise returns an article of the
store bearing that id (never an exception: the operation is total). -/
theorem getById_not_found_sentinel (s : Store) (i : Int) :
    ((∀ a ∈ (s.get_all_articles).1, a.id ≠ i) →
      (s.get_article_by_id i).1 = none) ∧
    ((∃ a ∈ (s.get_all_articles).1, a.id = i) →
      ∃ a, (s.get_article_by_id i).1 = some a ∧
        a ∈ (s.get_all_articles).1 ∧ a.id = i) := by
  constructor
  · intro hnone
    simp only [Store.get_article_by_id]
    rw [List.find?_eq_none]
    intro a ha
    simpa using hnone a ha
  · rintro ⟨a, ha, hai⟩
    rcases hb : (s.get_article_by_id i).1 with _ | b
    · exfalso
      simp only [Store.get_article_by_id] at hb
      rw [List.find?_eq_none] at hb
      exact hb a ha (by simpa using hai)
    · simp only [Store.get_article_by_id] at hb
      refine ⟨b, rfl, ?_, ?_⟩
      · exact List.mem_of_find?_eq_some hb
      · have := List.find?_some hb
        simpa using this

/-- Witness for C7 on the seed store: id 9999 is absent (sentinel result)
and id 1 is present. -/
theorem getById_not_found_sentinel_witness :
    (((∀ a ∈ ((MockDatabase.init none).get_all_articles).1, a.id ≠ (9999 : Int)) →
        ((MockDatabase.init none).get_article_by_id 9999).1 = none) ∧
      ((∃ a ∈ ((MockDatabase.init none).get_all_articles).1, a.id = (9999 : Int)) →
        ∃ a, ((MockDatabase.init none).get_article_by_id 9999).1 = some a ∧
          a ∈ ((MockDatabase.init none).get_all_articles).1 ∧ a.id = (9999 : Int))) ∧
    ((MockDatabase.init none).get_article_by_id 9999).1 = none ∧
    ((MockDatabase.init none).get_article_by_id 1).1 = some seedArticle1 :=
  ⟨getById_not_found_sentinel (MockDatabase.init none) 9999,
    (getById_not_found_sentinel (MockDatabase.init none) 9999).1 (by decide),
    rfl⟩

end TextSum
